import Mathlib

/-!
Verification of the self-healing stage orchestrator and fault-tolerant
presence detector of the LPU_INT331_CA2 repository.

The definitions below are a shallow embedding of the `Automation` class of
the main TypeScript source file (the variant with the six-stage topology
launchBrowser / userLogin / verifyUserLogin / getTodaysClass /
getClassLinkFromLectures / joinClass).  JavaScript objects holding one
`RetryConfig` per stage name are modelled as ordered association lists
(JS object iteration order is insertion order); timestamps are abstract
naturals; a thrown JS exception is an `Except.error`; the external
browser driver is abstracted into oracle functions supplied per call
(the stage actions, the lecture-link lookup and the presence check),
each of which may mutate the automation state exactly as the real
methods may.
-/

namespace OrchestratorModel

/-- The `ExecutionStage` string enum of the source. -/
inductive ExecutionStage where
  | initial
  | browser_launched
  | user_logged_in
  | login_verified
  | got_today_classes
  | class_joined
  | failed
deriving DecidableEq, Repr

/-- The three-valued `systemStatus` field of the source. -/
inductive SystemStatus where
  | healthy
  | degraded
  | failed
deriving DecidableEq, Repr

/-- The `RetryConfig` record of the source: per-stage retry bookkeeping.
Timestamps (`lastAttempt`, `lastSuccessTime`) are abstract naturals. -/
structure RetryConfig where
  maxRetries : Nat
  currentRetries : Nat
  lastAttempt : Option Nat
  lastError : Option String
  success : Bool
  lastSuccessTime : Option Nat
deriving DecidableEq, Repr

/-- `stageStatus` of the source: a JS object from stage name to
`RetryConfig`, modelled as an ordered association list. -/
abbrev StageStatus := List (String × RetryConfig)

/-- Property read `this.stageStatus[k]`: `none` models the JS value
`undefined` (whose member access throws a `TypeError`). -/
def lookupStage : StageStatus → String → Option RetryConfig
  | [], _ => none
  | (k, r) :: rest, s => if k = s then some r else lookupStage rest s

/-- In-place mutation of the record stored under `s` (JS property
assignment on `this.stageStatus[s]`).  Keys and their order are
unchanged; if `s` is absent the list is unchanged (callers check
presence first, mirroring the JS `TypeError` on the absent case). -/
def updateStage (ss : StageStatus) (s : String) (f : RetryConfig → RetryConfig) : StageStatus :=
  ss.map (fun p => (p.1, if p.1 = s then f p.2 else p.2))

/-- The mutable fields of the `Automation` instance that the orchestrator
core reads and writes.  `lectures` keeps only the length of the fetched
lecture list (its entries are consumed only by the external oracles);
`monitoringLocked` is the state of the monitoring mutex. -/
structure AutoState where
  currentStage : ExecutionStage
  stageStatus : StageStatus
  systemStatus : SystemStatus
  activeClassLink : Option String
  lectures : Option Nat
  codeTantraURL : String
  monitoringLocked : Bool
deriving DecidableEq, Repr

/-- Outcome of one bound stage action: a returned boolean, or a thrown
error carrying its message. -/
inductive ActionResult where
  | ok (b : Bool)
  | err (msg : String)
deriving DecidableEq, Repr

/-- The bound stage actions (`launchBrowser`, `userLogin`, ...), as an
oracle: each invocation may mutate the automation state (the real
methods advance `currentStage` and may write `lastError`/`success`
through `handleError`) and yields an `ActionResult`. -/
def Actions := String → AutoState → AutoState × ActionResult

/-- Message of the `TypeError` raised by a member access on `undefined`. -/
def tsTypeError : String := "TypeError"

/-- The `lastAttempt` stamp written at the top of `attemptStage`
(`this.stageStatus[stageName].lastAttempt = dayjs()...`). -/
def stampAttempt (st : AutoState) (s : String) (now : Nat) : AutoState :=
  { st with stageStatus :=
      updateStage st.stageStatus s (fun r => { r with lastAttempt := some now }) }

/-- The `switch (stageName)` dispatch inside `attemptStage`: the five
stages with a bound action call it; `joinClass` without an
`activeClassLink` and the `default` (unknown stage) branch yield
failure without invoking any action. -/
def dispatchStage (actions : Actions) (stageName : String) (st : AutoState) :
    AutoState × ActionResult :=
  if stageName = "launchBrowser" then actions "launchBrowser" st
  else if stageName = "userLogin" then actions "userLogin" st
  else if stageName = "verifyUserLogin" then actions "verifyUserLogin" st
  else if stageName = "getTodaysClass" then actions "getTodaysClass" st
  else if stageName = "joinClass" then
    match st.activeClassLink with
    | some _ => actions "joinClass" st
    | none => (st, ActionResult.ok false)
  else (st, ActionResult.ok false)

/-- `Automation.attemptStage(stageName)` of the source.

The JS body runs inside one `try`/`catch`.  If the record for
`stageName` is absent, the retry-budget guard dereferences `undefined`
and throws; the `catch` handler then writes to the same absent record
and throws again, so the `TypeError` escapes (`Except.error`).  With
the record present: if `currentRetries >= maxRetries` the action is not
invoked, `currentStage` becomes `FAILED` and `false` is returned;
otherwise `lastAttempt` is stamped, the action dispatched, and the
record updated — success sets `success`/`lastSuccessTime` and clears
`lastError`; failure sets `success := false` and increments
`currentRetries`; a thrown action error is caught and additionally
records `lastError = "Error in <stage>: <message>"`. -/
def attemptStage (actions : Actions) (now : Nat) (stageName : String) (st : AutoState) :
    AutoState × Except String Bool :=
  match lookupStage st.stageStatus stageName with
  | none => (st, Except.error tsTypeError)
  | some r0 =>
      if r0.currentRetries ≥ r0.maxRetries then
        ({ st with currentStage := ExecutionStage.failed }, Except.ok false)
      else
        match dispatchStage actions stageName (stampAttempt st stageName now) with
        | (st2, ActionResult.ok result) =>
            match lookupStage st2.stageStatus stageName with
            | none => (st2, Except.error tsTypeError)
            | some _ =>
                if result then
                  let ss := updateStage st2.stageStatus stageName (fun r =>
                    { r with success := true, lastSuccessTime := some now, lastError := none })
                  ({ st2 with stageStatus := ss }, Except.ok true)
                else
                  let ss := updateStage st2.stageStatus stageName (fun r =>
                    { r with success := false, currentRetries := r.currentRetries + 1 })
                  ({ st2 with stageStatus := ss }, Except.ok false)
        | (st2, ActionResult.err msg) =>
            match lookupStage st2.stageStatus stageName with
            | none => (st2, Except.error tsTypeError)
            | some _ =>
                let ss := updateStage st2.stageStatus stageName (fun r =>
                  { r with success := false, currentRetries := r.currentRetries + 1,
                           lastError := some ("Error in " ++ stageName ++ ": " ++ msg) })
                ({ st2 with stageStatus := ss }, Except.ok false)

/-- The fixed stage iteration order used by `findFailedStage`. -/
def stageOrder : List String :=
  ["launchBrowser", "userLogin", "verifyUserLogin", "getTodaysClass",
   "getClassLinkFromLectures", "joinClass"]

/-- Loop body of `Automation.findFailedStage`: scan a list of stage
names, return the first whose record has `success == false`; an absent
record would throw in JS (`Except.error`). -/
def findFailedStageAux (ss : StageStatus) : List String → Except String (Option String)
  | [] => Except.ok none
  | s :: rest =>
      match lookupStage ss s with
      | none => Except.error tsTypeError
      | some r => if r.success then findFailedStageAux ss rest else Except.ok (some s)

/-- `Automation.findFailedStage` of the source. -/
def findFailedStage (ss : StageStatus) : Except String (Option String) :=
  findFailedStageAux ss stageOrder

/-- `Automation.setStageBeforeFailedStage` of the source: the static
predecessor table setting `currentStage` to the state from which the
failed stage is re-attempted. -/
def setStageBeforeFailedStage (failedStage : String) (st : AutoState) : AutoState :=
  if failedStage = "launchBrowser" then { st with currentStage := ExecutionStage.initial }
  else if failedStage = "userLogin" then { st with currentStage := ExecutionStage.browser_launched }
  else if failedStage = "verifyUserLogin" then { st with currentStage := ExecutionStage.user_logged_in }
  else if failedStage = "getTodaysClass" then { st with currentStage := ExecutionStage.login_verified }
  else if failedStage = "getClassLinkFromLectures" then { st with currentStage := ExecutionStage.got_today_classes }
  else if failedStage = "joinClass" then { st with currentStage := ExecutionStage.got_today_classes }
  else { st with currentStage := ExecutionStage.initial }

/-- Count of stages with `success == true` (the `completedStages` local
of `updateSystemStatus`). -/
def countCompleted (ss : StageStatus) : Nat :=
  (ss.filter (fun p => p.2.success)).length

/-- `Object.values(this.stageStatus).some(s => s.currentRetries <
s.maxRetries && !s.success)` of `updateSystemStatus`. -/
def hasRetriableFailure (ss : StageStatus) : Bool :=
  ss.any (fun p => decide (p.2.currentRetries < p.2.maxRetries) && !p.2.success)

/-- `Automation.updateSystemStatus` of the source: the status
aggregator, recomputing `systemStatus` from `currentStage` and the
retry records. -/
def updateSystemStatus (st : AutoState) : AutoState :=
  if st.currentStage = ExecutionStage.failed then
    if hasRetriableFailure st.stageStatus then { st with systemStatus := SystemStatus.degraded }
    else { st with systemStatus := SystemStatus.failed }
  else if st.currentStage = ExecutionStage.class_joined then
    { st with systemStatus := SystemStatus.healthy }
  else
    if countCompleted st.stageStatus = st.stageStatus.length then
      { st with systemStatus := SystemStatus.healthy }
    else if 0 < countCompleted st.stageStatus then
      { st with systemStatus := SystemStatus.degraded }
    else { st with systemStatus := SystemStatus.failed }

/-- The per-stage `RetryConfig` the constructor installs. -/
def initRetry (m : Nat) : RetryConfig :=
  { maxRetries := m, currentRetries := 0, lastAttempt := none, lastError := none,
    success := false, lastSuccessTime := none }

/-- The `stageStatus` object built by the `Automation` constructor, with
the static retry budgets of the source. -/
def initStageStatus : StageStatus :=
  [("launchBrowser", initRetry 5), ("userLogin", initRetry 3),
   ("verifyUserLogin", initRetry 3), ("getTodaysClass", initRetry 3),
   ("getClassLinkFromLectures", initRetry 2), ("joinClass", initRetry 4)]

/-- The automation state right after the constructor ran. -/
def initState (url : String) : AutoState :=
  { currentStage := ExecutionStage.initial, stageStatus := initStageStatus,
    systemStatus := SystemStatus.healthy, activeClassLink := none,
    lectures := none, codeTantraURL := url, monitoringLocked := false }

/-- All six stages of the topology have a record (true of every state the
program can reach: the constructor installs all six and no code removes
a key). -/
def wfStages (ss : StageStatus) : Bool :=
  stageOrder.all (fun s => (lookupStage ss s).isSome)

/-! ### Monitor loop (`Automation.monitorExecution`) -/

/-- The external inputs of one monitoring tick: whether the browser
handle exists but has lost its connection, the stage-action oracle, and
the oracles standing for `getClassLinkFromLectures` and
`checkIfClassIsStillActive` (both may mutate the state, as the real
methods do, and return the value the tick branches on). -/
structure TickEnv where
  browserLost : Bool
  actions : Actions
  getLink : AutoState → AutoState × Option String
  checkActive : AutoState → AutoState × Bool

/-- The `this.lectures && this.lectures.length > 0` test. -/
def lecturesNonempty (st : AutoState) : Bool :=
  match st.lectures with
  | some n => decide (0 < n)
  | none => false

/-- The browser-connectivity check at the top of the tick's `try` block:
if the browser exists but is disconnected while past `INITIAL`, rewind
`currentStage` to `INITIAL`, clear `launchBrowser.success` and
recompute the status.  The returned flag records whether a `TypeError`
was thrown into the tick's `catch` (absent `launchBrowser` record). -/
def browserCheckStep (env : TickEnv) (st : AutoState) : AutoState × Bool :=
  if env.browserLost && !(st.currentStage = ExecutionStage.initial) then
    match lookupStage st.stageStatus "launchBrowser" with
    | none => ({ st with currentStage := ExecutionStage.initial }, true)
    | some _ =>
        let ss := updateStage st.stageStatus "launchBrowser" (fun r => { r with success := false })
        (updateSystemStatus { st with currentStage := ExecutionStage.initial, stageStatus := ss },
         false)
  else (st, false)

/-- Wrap an `attemptStage` call made by the tick: a thrown error is
caught by the tick's `catch` (flag `true`); the returned boolean is
discarded by the loop. -/
def tickAttempt (env : TickEnv) (now : Nat) (s : String) (st : AutoState) : AutoState × Bool :=
  match attemptStage env.actions now s st with
  | (st2, Except.ok _) => (st2, false)
  | (st2, Except.error _) => (st2, true)

/-- The `switch (this.currentStage)` body of `monitorExecution`.  Each
named stage dispatches at most one `attemptStage` call (guarded by the
stage's `success` flag where the source guards it); `GOT_TODAY_CLASSES`
consults the lecture-link oracle and attempts `joinClass` when a link
is live; `CLASS_JOINED` re-verifies presence and on a negative verdict
rewinds to `GOT_TODAY_CLASSES` clearing `joinClass.success`; `FAILED`
runs the recovery policy.  The flag records a thrown error reaching the
tick's `catch`. -/
def tickSwitch (env : TickEnv) (now : Nat) (st : AutoState) : AutoState × Bool :=
  match st.currentStage with
  | ExecutionStage.initial =>
      match lookupStage st.stageStatus "launchBrowser" with
      | none => (st, true)
      | some r => if r.success then (st, false) else tickAttempt env now "launchBrowser" st
  | ExecutionStage.browser_launched =>
      match lookupStage st.stageStatus "userLogin" with
      | none => (st, true)
      | some r => if r.success then (st, false) else tickAttempt env now "userLogin" st
  | ExecutionStage.user_logged_in =>
      match lookupStage st.stageStatus "verifyUserLogin" with
      | none => (st, true)
      | some r => if r.success then (st, false) else tickAttempt env now "verifyUserLogin" st
  | ExecutionStage.login_verified =>
      match lookupStage st.stageStatus "getTodaysClass" with
      | none => (st, true)
      | some r => if r.success then (st, false) else tickAttempt env now "getTodaysClass" st
  | ExecutionStage.got_today_classes =>
      if lecturesNonempty st then
        match env.getLink st with
        | (st1, some linkPath) =>
            tickAttempt env now "joinClass"
              { st1 with activeClassLink := some (st1.codeTantraURL ++ linkPath) }
        | (st1, none) => (st1, false)
      else (st, false)
  | ExecutionStage.class_joined =>
      if lecturesNonempty st then
        match env.checkActive st with
        | (st1, true) => (st1, false)
        | (st1, false) =>
            match lookupStage st1.stageStatus "joinClass" with
            | none => ({ st1 with currentStage := ExecutionStage.got_today_classes }, true)
            | some _ =>
                let ss := updateStage st1.stageStatus "joinClass" (fun r => { r with success := false })
                ({ st1 with currentStage := ExecutionStage.got_today_classes, stageStatus := ss },
                 false)
      else (st, false)
  | ExecutionStage.failed =>
      match findFailedStage st.stageStatus with
      | Except.error _ => (st, true)
      | Except.ok none => ({ st with systemStatus := SystemStatus.failed }, false)
      | Except.ok (some s) =>
          match lookupStage st.stageStatus s with
          | none => (st, true)
          | some r =>
              if r.currentRetries < r.maxRetries then
                ({ setStageBeforeFailedStage s st with systemStatus := SystemStatus.degraded },
                 false)
              else ({ st with systemStatus := SystemStatus.failed }, false)

/-- `Automation.monitorExecution` of the source, as one tick.  If the
monitoring mutex is already held the tick returns at once, touching
nothing.  Otherwise the body runs under the mutex; a thrown error is
caught into `systemStatus = "degraded"`; the mutex is released and
`updateSystemStatus` recomputes the aggregate unconditionally. -/
def monitorTick (env : TickEnv) (now : Nat) (st0 : AutoState) : AutoState :=
  if st0.monitoringLocked then st0
  else
    match browserCheckStep env st0 with
    | (st1, true) => updateSystemStatus { st1 with systemStatus := SystemStatus.degraded }
    | (st1, false) =>
        match tickSwitch env now st1 with
        | (st2, true) => updateSystemStatus { st2 with systemStatus := SystemStatus.degraded }
        | (st2, false) => updateSystemStatus st2

/-! ### Presence detector (`Automation.checkIfClassIsStillActive`) -/

/-- The observable behaviour of one detection method of the users-panel
scan: it either raises partway through, or runs to completion with a
positive or negative result. -/
inductive MethodOutcome where
  | errored
  | ran (positive : Bool)
deriving DecidableEq, Repr

/-- One `try { totalMethods++; ...; if (found) successfulMethods++ }
catch {...}` block of the source, acting on the counter pair
`(totalMethods, successfulMethods)`.  Note the source increments
`totalMethods` at the top of the `try`, before the fallible queries
run, so a method that raises has already been counted. -/
def methodStep : Nat × Nat → MethodOutcome → Nat × Nat
  | (t, s), MethodOutcome.errored => (t + 1, s)
  | (t, s), MethodOutcome.ran b => (t + 1, if b then s + 1 else s)

/-- The counter pair `(totalMethods, successfulMethods)` after the
panel scan; the source unrolls three such blocks in sequence. -/
def runPanel (ms : List MethodOutcome) : Nat × Nat :=
  ms.foldl methodStep (0, 0)

/-- Modelled from the spec: the counting the spec (and the source's own
comment `Increment this only for methods that run without error`)
prescribes — a method that raises is excluded from both counts. -/
def specMethodCounts (ms : List MethodOutcome) : Nat × Nat :=
  ms.foldl
    (fun c m =>
      match m with
      | MethodOutcome.errored => c
      | MethodOutcome.ran b => (c.1 + 1, if b then c.2 + 1 else c.2))
    (0, 0)

/-- `this.userDetectionFaultTolerance = 1 / 3` of the source. -/
def userDetectionFaultTolerance : ℚ := 1 / 3

/-- The final fault-tolerance computation of
`checkIfClassIsStillActive`: with at least one counted method, compare
`successRate = successfulMethods / totalMethods` against the threshold;
with none, return `false` (user assumed gone) without dividing. -/
def faultToleranceVerdict (successfulMethods totalMethods : Nat) : Bool :=
  if 0 < totalMethods then
    decide ((successfulMethods : ℚ) / (totalMethods : ℚ) ≥ userDetectionFaultTolerance)
  else false

/-- Verdict of the users-panel scan for a list of method outcomes. -/
def panelVerdict (ms : List MethodOutcome) : Bool :=
  faultToleranceVerdict (runPanel ms).2 (runPanel ms).1

/-- The record stored under stage `s`, if any, has `success == true`. -/
def stageSucceeded (ss : StageStatus) (s : String) : Bool :=
  match lookupStage ss s with
  | some r => r.success
  | none => false

/-! ### Concrete oracles and states used to instantiate theorems -/

/-- Action oracle: every action leaves the state unchanged and reports
success. -/
def okActions : Actions := fun _ st => (st, ActionResult.ok true)

/-- Action oracle: every action leaves the state unchanged and reports
failure (without throwing). -/
def failActions : Actions := fun _ st => (st, ActionResult.ok false)

/-- Action oracle: every action leaves the state unchanged and throws
with message "boom". -/
def errActions : Actions := fun _ st => (st, ActionResult.err "boom")

/-- A tick environment with a connected browser and inert oracles. -/
def idleEnv : TickEnv :=
  { browserLost := false, actions := failActions,
    getLink := fun st => (st, none), checkActive := fun st => (st, true) }

/-- The automation state right after the constructor ran, with an empty
base URL. -/
def state0 : AutoState := initState ""

/-- The initial state with the `launchBrowser` retry budget spent. -/
def exhaustedState : AutoState :=
  { state0 with stageStatus :=
      updateStage initStageStatus "launchBrowser" (fun r => { r with currentRetries := 5 }) }

/-- `state0` with the monitoring mutex held. -/
def lockedState : AutoState := { state0 with monitoringLocked := true }

/-- The fresh topology with `currentStage` forced to `FAILED` (every
record untouched, so every retry budget is intact). -/
def freshFailedState : AutoState := { state0 with currentStage := ExecutionStage.failed }

/-- A terminal topology: `launchBrowser` succeeded with budget intact,
every other stage unsucceeded with its retry budget spent. -/
def termStageStatus : StageStatus :=
  [("launchBrowser", { initRetry 5 with success := true }),
   ("userLogin", { initRetry 3 with currentRetries := 3 }),
   ("verifyUserLogin", { initRetry 3 with currentRetries := 3 }),
   ("getTodaysClass", { initRetry 3 with currentRetries := 3 }),
   ("getClassLinkFromLectures", { initRetry 2 with currentRetries := 2 }),
   ("joinClass", { initRetry 4 with currentRetries := 4 })]

/-- The terminal failed state built on `termStageStatus`. -/
def termState : AutoState :=
  { state0 with
      currentStage := ExecutionStage.failed,
      systemStatus := SystemStatus.failed,
      stageStatus := termStageStatus }

/-- Action oracle whose `launchBrowser` relaunches successfully (and,
as the real method does, advances `currentStage` itself); every other
action fails. -/
def relaunchActions : Actions := fun nm st =>
  if nm = "launchBrowser" then
    ({ st with currentStage := ExecutionStage.browser_launched }, ActionResult.ok true)
  else (st, ActionResult.ok false)

/-- A tick environment in which the browser handle exists but has lost
its connection, with a relaunch that succeeds. -/
def lostEnv : TickEnv :=
  { browserLost := true, actions := relaunchActions,
    getLink := fun st => (st, none), checkActive := fun st => (st, true) }

/-! ### Basic facts about the association-list operations -/

theorem lookup_update (ss : StageStatus) (s k : String) (f : RetryConfig → RetryConfig) :
    lookupStage (updateStage ss s f) k =
      if k = s then (lookupStage ss k).map f else lookupStage ss k := by
  induction ss with
  | nil => simp [updateStage, lookupStage]
  | cons p rest ih =>
      obtain ⟨k0, r⟩ := p
      by_cases hk0 : k0 = s
      · subst hk0
        by_cases hkk : k0 = k
        · subst hkk
          simp [updateStage, lookupStage]
        · simp only [updateStage] at ih
          simp [updateStage, lookupStage, hkk, Ne.symm hkk, ih]
      · by_cases hkk : k0 = k
        · subst hkk
          simp [updateStage, lookupStage, hk0]
        · simp only [updateStage] at ih
          simp [updateStage, lookupStage, hk0, hkk, ih]

theorem length_update (ss : StageStatus) (s : String) (f : RetryConfig → RetryConfig) :
    (updateStage ss s f).length = ss.length := by
  simp [updateStage]

theorem lookup_mem {ss : StageStatus} {s : String} {r : RetryConfig}
    (h : lookupStage ss s = some r) : (s, r) ∈ ss := by
  induction ss with
  | nil => simp [lookupStage] at h
  | cons p rest ih =>
      obtain ⟨k0, r0⟩ := p
      by_cases hk : k0 = s
      · subst hk
        simp [lookupStage] at h
        simp [h]
      · simp [lookupStage, hk] at h
        exact List.mem_cons_of_mem _ (ih h)

theorem countCompleted_update_le (ss : StageStatus) :
    countCompleted ss ≤ ss.length := by
  simpa [countCompleted] using List.length_filter_le (fun p => p.2.success) ss

theorem countCompleted_lt_of_mem {ss : StageStatus} {q : String × RetryConfig}
    (hmem : q ∈ ss) (hs : q.2.success = false) : countCompleted ss < ss.length := by
  induction ss with
  | nil => simp at hmem
  | cons p rest ih =>
      rcases List.mem_cons.mp hmem with hq | hq
      · subst hq
        simp only [countCompleted, List.filter_cons, hs, Bool.false_eq_true, if_false,
          List.length_cons]
        exact Nat.lt_succ_of_le (countCompleted_update_le rest)
      · simp only [countCompleted, List.filter_cons, List.length_cons]
        by_cases hps : p.2.success = true
        · simpa [hps, countCompleted] using Nat.succ_lt_succ (ih hq)
        · simp only [hps, if_false]
          exact Nat.lt_succ_of_le (Nat.le_of_lt (ih hq))

theorem countCompleted_lt_length {ss : StageStatus} {s : String} {r : RetryConfig}
    (h : lookupStage ss s = some r) (hs : r.success = false) :
    countCompleted ss < ss.length :=
  countCompleted_lt_of_mem (lookup_mem h) hs

/-! ### Neutrality of the bound actions with respect to retry counters

Every bound action of the source (`launchBrowser`, `userLogin`,
`verifyUserLogin`, `getTodaysClass`, `joinClass`) mutates only
`currentStage`, page/browser handles, and — through `handleError` — the
`lastError` and `success` fields of existing records; none of them
touches `currentRetries` or `maxRetries`, and no code ever removes a
`stageStatus` key.  `RetryNeutral` captures exactly this property. -/

def RetryNeutral (g : AutoState → AutoState × ActionResult) : Prop :=
  ∀ st k r, lookupStage st.stageStatus k = some r →
    ∃ r2, lookupStage (g st).1.stageStatus k = some r2 ∧
      r2.currentRetries = r.currentRetries ∧ r2.maxRetries = r.maxRetries

theorem retryNeutral_of_fixed {g : AutoState → AutoState × ActionResult}
    (hg : ∀ st, (g st).1 = st) : RetryNeutral g :=
  fun st k r hk => ⟨r, by rw [hg]; exact hk, rfl, rfl⟩

theorem dispatch_retryNeutral {actions : Actions} (h : ∀ nm, RetryNeutral (actions nm))
    (s : String) : RetryNeutral (dispatchStage actions s) := by
  intro st k r hk
  unfold dispatchStage
  split_ifs with h1 h2 h3 h4 h5
  · exact h _ st k r hk
  · exact h _ st k r hk
  · exact h _ st k r hk
  · exact h _ st k r hk
  · rcases hl : st.activeClassLink with _ | l
    · exact ⟨r, by simp [hl, hk], rfl, rfl⟩
    · simpa [hl] using h "joinClass" st k r hk
  · exact ⟨r, hk, rfl, rfl⟩

theorem lookup_stamp (st : AutoState) (s k : String) (now : Nat) :
    lookupStage (stampAttempt st s now).stageStatus k =
      if k = s then (lookupStage st.stageStatus k).map (fun r => { r with lastAttempt := some now })
      else lookupStage st.stageStatus k := by
  simp [stampAttempt, lookup_update]

/-! ### Characterisation of the `attemptStage` branches -/

theorem attemptStage_guard {st : AutoState} {s : String} {r0 : RetryConfig}
    (h : lookupStage st.stageStatus s = some r0)
    (hge : r0.maxRetries ≤ r0.currentRetries)
    (actions : Actions) (now : Nat) :
    attemptStage actions now s st =
      ({ st with currentStage := ExecutionStage.failed }, Except.ok false) := by
  unfold attemptStage
  rw [h]
  simp only [ge_iff_le, hge, if_true]

theorem attemptStage_missing {st : AutoState} {s : String}
    (h : lookupStage st.stageStatus s = none)
    (actions : Actions) (now : Nat) :
    attemptStage actions now s st = (st, Except.error tsTypeError) := by
  unfold attemptStage
  rw [h]

theorem attemptStage_ok {st st2 : AutoState} {s : String} {r0 r2 : RetryConfig} {b : Bool}
    {actions : Actions} {now : Nat}
    (h : lookupStage st.stageStatus s = some r0)
    (hlt : r0.currentRetries < r0.maxRetries)
    (hd : dispatchStage actions s (stampAttempt st s now) = (st2, ActionResult.ok b))
    (h2 : lookupStage st2.stageStatus s = some r2) :
    attemptStage actions now s st =
      ({ st2 with stageStatus :=
          if b then
            updateStage st2.stageStatus s (fun r =>
              { r with success := true, lastSuccessTime := some now, lastError := none })
          else
            updateStage st2.stageStatus s (fun r =>
              { r with success := false, currentRetries := r.currentRetries + 1 }) },
       Except.ok b) := by
  unfold attemptStage
  rw [h]
  simp only [ge_iff_le, not_le.mpr hlt, if_false]
  rw [hd]
  simp only [h2]
  cases b <;> rfl

theorem attemptStage_err {st st2 : AutoState} {s : String} {r0 r2 : RetryConfig} {msg : String}
    {actions : Actions} {now : Nat}
    (h : lookupStage st.stageStatus s = some r0)
    (hlt : r0.currentRetries < r0.maxRetries)
    (hd : dispatchStage actions s (stampAttempt st s now) = (st2, ActionResult.err msg))
    (h2 : lookupStage st2.stageStatus s = some r2) :
    attemptStage actions now s st =
      ({ st2 with stageStatus := updateStage st2.stageStatus s (fun r =>
          { r with success := false, currentRetries := r.currentRetries + 1,
                   lastError := some ("Error in " ++ s ++ ": " ++ msg) }) },
       Except.ok false) := by
  unfold attemptStage
  rw [h]
  simp only [ge_iff_le, not_le.mpr hlt, if_false]
  rw [hd]
  simp only [h2]

/-! ### Characterisation of `findFailedStage` -/

theorem findFailedStageAux_none_iff (ss : StageStatus) (L : List String)
    (hwf : ∀ s ∈ L, (lookupStage ss s).isSome) :
    findFailedStageAux ss L = Except.ok none ↔
      ∀ s ∈ L, stageSucceeded ss s = true := by
  induction L with
  | nil => simp [findFailedStageAux]
  | cons a L ih =>
      obtain ⟨ra, hra⟩ := Option.isSome_iff_exists.mp (hwf a (by simp))
      have ihL := ih (fun s hs => hwf s (by simp [hs]))
      rw [findFailedStageAux, hra]
      by_cases hs : ra.success
      · simp only [hs, if_true]
        rw [ihL]
        constructor
        · intro hall s hsm
          rcases List.mem_cons.mp hsm with rfl | hsm
          · simp [stageSucceeded, hra, hs]
          · exact hall s hsm
        · intro hall s hsm
          exact hall s (List.mem_cons_of_mem _ hsm)
      · simp only [hs, if_false]
        constructor
        · intro hcontra
          cases hcontra
        · intro hall
          have := hall a (by simp)
          rw [stageSucceeded, hra] at this
          exact absurd this hs

theorem findFailedStageAux_some {ss : StageStatus} {L : List String} {s : String}
    (h : findFailedStageAux ss L = Except.ok (some s)) :
    ∃ pre post r, L = pre ++ s :: post ∧
      lookupStage ss s = some r ∧ r.success = false ∧
      ∀ t ∈ pre, stageSucceeded ss t = true := by
  induction L with
  | nil => simp [findFailedStageAux] at h
  | cons a L ih =>
      rw [findFailedStageAux] at h
      cases hla : lookupStage ss a with
      | none => exact absurd h (by simp [hla])
      | some ra =>
          simp only [hla] at h
          by_cases hs : ra.success
          · rw [if_pos hs] at h
            obtain ⟨pre, post, r, hL, hlook, hrs, hpre⟩ := ih h
            refine ⟨a :: pre, post, r, by simp [hL], hlook, hrs, ?_⟩
            intro t ht
            rcases List.mem_cons.mp ht with rfl | ht
            · simp [stageSucceeded, hla, hs]
            · exact hpre t ht
          · rw [if_neg hs] at h
            have hsa : a = s := by simpa using h
            subst hsa
            exact ⟨[], L, ra, by simp, hla, by simpa using hs, by simp⟩

theorem findFailedStageAux_isOk (ss : StageStatus) (L : List String)
    (hwf : ∀ s ∈ L, (lookupStage ss s).isSome) :
    ∃ o, findFailedStageAux ss L = Except.ok o := by
  induction L with
  | nil => exact ⟨none, rfl⟩
  | cons a L ih =>
      obtain ⟨ra, hra⟩ := Option.isSome_iff_exists.mp (hwf a (by simp))
      rw [findFailedStageAux, hra]
      by_cases hs : ra.success
      · simpa [hs] using ih (fun s hs => hwf s (by simp [hs]))
      · exact ⟨some a, by simp [hs]⟩

/-! ### Facts about the recovery rewind and the status aggregator -/

theorem setStage_stageStatus (s : String) (st : AutoState) :
    (setStageBeforeFailedStage s st).stageStatus = st.stageStatus := by
  unfold setStageBeforeFailedStage
  split_ifs <;> rfl

theorem setStage_not_failed (s : String) (st : AutoState) :
    (setStageBeforeFailedStage s st).currentStage ≠ ExecutionStage.failed ∧
    (setStageBeforeFailedStage s st).currentStage ≠ ExecutionStage.class_joined := by
  unfold setStageBeforeFailedStage
  split_ifs <;> exact ⟨by simp, by simp⟩

theorem updateSystemStatus_stage (st : AutoState) :
    (updateSystemStatus st).currentStage = st.currentStage ∧
    (updateSystemStatus st).stageStatus = st.stageStatus := by
  unfold updateSystemStatus
  split_ifs <;> exact ⟨rfl, rfl⟩

theorem updateSystemStatus_count {st : AutoState}
    (h1 : st.currentStage ≠ ExecutionStage.failed)
    (h2 : st.currentStage ≠ ExecutionStage.class_joined) :
    (updateSystemStatus st).systemStatus =
      (if countCompleted st.stageStatus = st.stageStatus.length then SystemStatus.healthy
       else if 0 < countCompleted st.stageStatus then SystemStatus.degraded
       else SystemStatus.failed) := by
  unfold updateSystemStatus
  rw [if_neg h1, if_neg h2]
  split_ifs <;> rfl

theorem updateSystemStatus_failed {st : AutoState}
    (h1 : st.currentStage = ExecutionStage.failed)
    (h2 : hasRetriableFailure st.stageStatus = false) :
    updateSystemStatus st = { st with systemStatus := SystemStatus.failed } := by
  unfold updateSystemStatus
  rw [if_pos h1, h2]
  rfl

/-! ### The tick in the terminal `FAILED` state -/

theorem tickSwitch_failed_rewind {env : TickEnv} {now : Nat} {st : AutoState} {s : String}
    {r : RetryConfig}
    (hstage : st.currentStage = ExecutionStage.failed)
    (hfind : findFailedStage st.stageStatus = Except.ok (some s))
    (hrec : lookupStage st.stageStatus s = some r)
    (hlt : r.currentRetries < r.maxRetries) :
    tickSwitch env now st =
      ({ setStageBeforeFailedStage s st with systemStatus := SystemStatus.degraded }, false) := by
  unfold tickSwitch
  rw [hstage, hfind]
  simp only [hrec, hlt, if_true]

theorem wf_forall {ss : StageStatus} (hwf : wfStages ss = true) :
    ∀ t ∈ stageOrder, (lookupStage ss t).isSome := by
  intro t ht
  have := List.all_eq_true.mp hwf t ht
  simpa using this

theorem tickSwitch_failed_exhausted {env : TickEnv} {now : Nat} {st : AutoState}
    (hstage : st.currentStage = ExecutionStage.failed)
    (hwf : wfStages st.stageStatus = true)
    (hall : ∀ p ∈ st.stageStatus, p.2.success = false → p.2.maxRetries ≤ p.2.currentRetries) :
    tickSwitch env now st = ({ st with systemStatus := SystemStatus.failed }, false) := by
  have hwf2 : ∀ t ∈ stageOrder, (lookupStage st.stageStatus t).isSome := wf_forall hwf
  obtain ⟨o, ho⟩ := findFailedStageAux_isOk st.stageStatus stageOrder hwf2
  unfold tickSwitch
  rw [hstage]
  rw [show findFailedStage st.stageStatus = Except.ok o from ho]
  cases o with
  | none => rfl
  | some s =>
      obtain ⟨pre, post, r, hL, hlook, hrs, hpre⟩ := findFailedStageAux_some ho
      have hex : r.maxRetries ≤ r.currentRetries := hall (s, r) (lookup_mem hlook) hrs
      simp only [hlook, not_lt.mpr hex, if_false]

theorem hasRetriableFailure_false {st : AutoState}
    (hall : ∀ p ∈ st.stageStatus, p.2.success = false → p.2.maxRetries ≤ p.2.currentRetries) :
    hasRetriableFailure st.stageStatus = false := by
  rw [hasRetriableFailure]
  rw [List.any_eq_false]
  intro p hp
  by_cases hs : p.2.success = true
  · simp [hs]
  · have := hall p hp (by simpa using hs)
    simp [not_lt.mpr this]

theorem terminal_tick {env : TickEnv} {now : Nat} {st : AutoState}
    (hlock : st.monitoringLocked = false)
    (hstage : st.currentStage = ExecutionStage.failed)
    (hbr : env.browserLost = false)
    (hwf : wfStages st.stageStatus = true)
    (hall : ∀ p ∈ st.stageStatus, p.2.success = false → p.2.maxRetries ≤ p.2.currentRetries) :
    monitorTick env now st = { st with systemStatus := SystemStatus.failed } := by
  unfold monitorTick
  rw [if_neg (by simp [hlock])]
  have hbc : browserCheckStep env st = (st, false) := by
    unfold browserCheckStep
    rw [if_neg (by simp [hbr])]
  rw [hbc]
  simp only [@tickSwitch_failed_exhausted env now st hstage hwf hall]
  exact updateSystemStatus_failed (by simpa using hstage) (hasRetriableFailure_false hall)

theorem rewind_tick {env : TickEnv} {now : Nat} {st : AutoState} {s : String} {r : RetryConfig}
    (hlock : st.monitoringLocked = false)
    (hstage : st.currentStage = ExecutionStage.failed)
    (hbr : env.browserLost = false)
    (hfind : findFailedStage st.stageStatus = Except.ok (some s))
    (hrec : lookupStage st.stageStatus s = some r)
    (hlt : r.currentRetries < r.maxRetries) :
    monitorTick env now st =
      updateSystemStatus
        { setStageBeforeFailedStage s st with systemStatus := SystemStatus.degraded } := by
  unfold monitorTick
  rw [if_neg (by simp [hlock])]
  have hbc : browserCheckStep env st = (st, false) := by
    unfold browserCheckStep
    rw [if_neg (by simp [hbr])]
  rw [hbc]
  simp only [@tickSwitch_failed_rewind env now st s r hstage hfind hrec hlt]

/-! ## The claims -/

/-- Claim C1: for every stage name `s` present in the topology, if
`stageStatus[s].currentRetries >= stageStatus[s].maxRetries` when
`attemptStage(s)` is called, the stage's bound action is never invoked
(the result is one and the same for every action oracle), `currentStage`
is set to `FAILED`, the call returns failure, and the stage's record is
left unmodified — no `lastAttempt` stamp, no retry increment. -/
theorem claim_C1 (st : AutoState) (s : String) (r0 : RetryConfig)
    (h : lookupStage st.stageStatus s = some r0)
    (hge : r0.maxRetries ≤ r0.currentRetries) :
    ∀ actions now,
      attemptStage actions now s st =
        ({ st with currentStage := ExecutionStage.failed }, Except.ok false) :=
  fun actions now => attemptStage_guard h hge actions now

/-- Witness for C1: the exhausted `launchBrowser` record (5 of 5 retries
used) makes `attemptStage` fail terminally without running the action. -/
theorem claim_C1_witness :
    lookupStage exhaustedState.stageStatus "launchBrowser"
      = some { initRetry 5 with currentRetries := 5 } ∧
    ({ initRetry 5 with currentRetries := 5 } : RetryConfig).maxRetries
      ≤ ({ initRetry 5 with currentRetries := 5 } : RetryConfig).currentRetries ∧
    attemptStage okActions 0 "launchBrowser" exhaustedState =
      ({ exhaustedState with currentStage := ExecutionStage.failed }, Except.ok false) :=
  ⟨by decide, by decide,
   claim_C1 exhaustedState "launchBrowser" { initRetry 5 with currentRetries := 5 }
     (by decide) (by decide) okActions 0⟩

/-- Claim C9: if the monitoring mutex is already held when
`monitorExecution` is invoked, the invocation is dropped — the tick
returns the state untouched (no stage action dispatched, no record or
`currentStage` or `systemStatus` mutation, no status recomputation),
whatever the environment, so two overlapping ticks never both execute
past the mutex. -/
theorem claim_C9 (st : AutoState) (h : st.monitoringLocked = true) :
    ∀ env now, monitorTick env now st = st := by
  intro env now
  unfold monitorTick
  rw [if_pos h]

/-- Witness for C9: a locked tick over the fresh state is the identity. -/
theorem claim_C9_witness :
    (lockedState : AutoState).monitoringLocked = true ∧
    monitorTick idleEnv 0 lockedState =
      lockedState :=
  ⟨rfl, claim_C9 lockedState rfl idleEnv 0⟩

/-- Claim C10: for a stage name `s` NOT present in the topology,
`attemptStage(s)` does not return `false` — it throws: the retry-budget
guard dereferences the missing record (`TypeError`), and the `catch`
handler rethrows for the same reason when writing to the missing
record.  The call is independent of the action oracle (so the `Unknown
stage` default branch is never reached for such `s`) and leaves the
state untouched. -/
theorem claim_C10 (st : AutoState) (s : String)
    (h : lookupStage st.stageStatus s = none) :
    ∀ actions now,
      attemptStage actions now s st = (st, Except.error tsTypeError) :=
  fun actions now => attemptStage_missing h actions now

/-- Witness for C10: the unknown stage name "bogus" makes `attemptStage`
throw instead of returning a boolean. -/
theorem claim_C10_witness :
    lookupStage state0.stageStatus "bogus" = none ∧
    attemptStage okActions 0 "bogus" state0 =
      (state0, Except.error tsTypeError) :=
  ⟨by decide, claim_C10 state0 "bogus" (by decide) okActions 0⟩

/-- Claim C2: for every stage name `s` present in the topology, for
every action oracle that (like every bound action of the source) leaves
`currentRetries` and `maxRetries` of existing records untouched, and
for every state with `currentRetries <= maxRetries` for `s` before the
call, the invariant `currentRetries <= maxRetries` for `s` still holds
after any `attemptStage(s)` call; equality triggers the
terminal-failure transition (`currentStage = FAILED`), so the counter
is never incremented past `maxRetries`. -/
theorem claim_C2 (actions : Actions) (hact : ∀ nm, RetryNeutral (actions nm))
    (st : AutoState) (s : String) (r0 : RetryConfig) (now : Nat)
    (h : lookupStage st.stageStatus s = some r0)
    (hle : r0.currentRetries ≤ r0.maxRetries) :
    (∀ r2, lookupStage (attemptStage actions now s st).1.stageStatus s = some r2 →
        r2.currentRetries ≤ r2.maxRetries) ∧
    (r0.currentRetries = r0.maxRetries →
        (attemptStage actions now s st).1.currentStage = ExecutionStage.failed) := by
  by_cases hge : r0.maxRetries ≤ r0.currentRetries
  · rw [attemptStage_guard h hge actions now]
    refine ⟨?_, fun _ => rfl⟩
    intro r2 hr2
    have hr2' : lookupStage st.stageStatus s = some r2 := hr2
    rw [h] at hr2'
    cases hr2'
    exact hle
  · have hlt : r0.currentRetries < r0.maxRetries := not_le.mp hge
    have hstamp : lookupStage (stampAttempt st s now).stageStatus s =
        some { r0 with lastAttempt := some now } := by
      rw [lookup_stamp, if_pos rfl, h]
      rfl
    rcases hd : dispatchStage actions s (stampAttempt st s now) with ⟨st2, res⟩
    obtain ⟨r2, hr2, hcur, hmax⟩ :=
      dispatch_retryNeutral hact s (stampAttempt st s now) s _ hstamp
    rw [hd] at hr2
    have hr2 : lookupStage st2.stageStatus s = some r2 := hr2
    have hcur : r2.currentRetries = r0.currentRetries := hcur
    have hmax : r2.maxRetries = r0.maxRetries := hmax
    refine ⟨?_, fun heq => absurd heq (by omega)⟩
    intro r3 hr3
    cases res with
    | ok b =>
        rw [attemptStage_ok h hlt hd hr2] at hr3
        have hr3' : lookupStage
            (if b then
              updateStage st2.stageStatus s (fun r =>
                { r with success := true, lastSuccessTime := some now, lastError := none })
            else
              updateStage st2.stageStatus s (fun r =>
                { r with success := false, currentRetries := r.currentRetries + 1 })) s
            = some r3 := hr3
        cases b
        · rw [if_neg (by simp)] at hr3'
          rw [lookup_update, if_pos rfl, hr2] at hr3'
          cases hr3'
          simp only
          omega
        · rw [if_pos rfl] at hr3'
          rw [lookup_update, if_pos rfl, hr2] at hr3'
          cases hr3'
          simp only
          omega
    | err msg =>
        rw [attemptStage_err h hlt hd hr2] at hr3
        have hr3' : lookupStage
            (updateStage st2.stageStatus s (fun r =>
              { r with success := false, currentRetries := r.currentRetries + 1,
                       lastError := some ("Error in " ++ s ++ ": " ++ msg) })) s
            = some r3 := hr3
        rw [lookup_update, if_pos rfl, hr2] at hr3'
        cases hr3'
        simp only
        omega

/-- Witness for C2: the fresh `launchBrowser` record with the
state-preserving failing action keeps the invariant. -/
theorem claim_C2_witness :
    lookupStage state0.stageStatus "launchBrowser" = some (initRetry 5) ∧
    (initRetry 5).currentRetries ≤ (initRetry 5).maxRetries ∧
    ((∀ r2, lookupStage (attemptStage failActions 0 "launchBrowser" state0).1.stageStatus
          "launchBrowser" = some r2 → r2.currentRetries ≤ r2.maxRetries) ∧
     ((initRetry 5).currentRetries = (initRetry 5).maxRetries →
        (attemptStage failActions 0 "launchBrowser" state0).1.currentStage =
          ExecutionStage.failed)) :=
  ⟨by decide, by decide,
   claim_C2 failActions (fun _ => retryNeutral_of_fixed (fun _ => rfl))
     state0 "launchBrowser" (initRetry 5) 0 (by decide) (by decide)⟩

/-- Claim C5: for every stage name `s` present in the topology with
retry budget remaining, when `attemptStage(s)` invokes the bound action
(any oracle that, like the real actions, does not touch the retry
counters): if the action returns success the record is updated with
`success = true`, `lastSuccessTime = now` and `lastError` cleared; if
the action returns failure the record is updated with `success = false`
and `currentRetries` incremented by exactly one over its pre-call
value — never more. -/
theorem claim_C5 (actions : Actions) (hact : ∀ nm, RetryNeutral (actions nm))
    (st : AutoState) (s : String) (r0 : RetryConfig) (now : Nat)
    (h : lookupStage st.stageStatus s = some r0)
    (hlt : r0.currentRetries < r0.maxRetries) :
    (∀ st2, dispatchStage actions s (stampAttempt st s now) = (st2, ActionResult.ok true) →
       ∃ r3, lookupStage (attemptStage actions now s st).1.stageStatus s = some r3 ∧
         r3.success = true ∧ r3.lastSuccessTime = some now ∧ r3.lastError = none ∧
         (attemptStage actions now s st).2 = Except.ok true) ∧
    (∀ st2, dispatchStage actions s (stampAttempt st s now) = (st2, ActionResult.ok false) →
       ∃ r3, lookupStage (attemptStage actions now s st).1.stageStatus s = some r3 ∧
         r3.success = false ∧ r3.currentRetries = r0.currentRetries + 1 ∧
         (attemptStage actions now s st).2 = Except.ok false) := by
  have hstamp : lookupStage (stampAttempt st s now).stageStatus s =
      some { r0 with lastAttempt := some now } := by
    rw [lookup_stamp, if_pos rfl, h]
    rfl
  constructor
  · intro st2 hd
    obtain ⟨r2, hr2, hcur, hmax⟩ :=
      dispatch_retryNeutral hact s (stampAttempt st s now) s _ hstamp
    rw [hd] at hr2
    have hr2 : lookupStage st2.stageStatus s = some r2 := hr2
    rw [attemptStage_ok h hlt hd hr2]
    refine ⟨{ r2 with success := true, lastSuccessTime := some now, lastError := none },
      ?_, rfl, rfl, rfl, rfl⟩
    have : lookupStage (updateStage st2.stageStatus s (fun r =>
        { r with success := true, lastSuccessTime := some now, lastError := none })) s =
        some { r2 with success := true, lastSuccessTime := some now, lastError := none } := by
      rw [lookup_update, if_pos rfl, hr2]
      rfl
    simpa using this
  · intro st2 hd
    obtain ⟨r2, hr2, hcur, hmax⟩ :=
      dispatch_retryNeutral hact s (stampAttempt st s now) s _ hstamp
    rw [hd] at hr2
    have hr2 : lookupStage st2.stageStatus s = some r2 := hr2
    have hcur : r2.currentRetries = r0.currentRetries := hcur
    rw [attemptStage_ok h hlt hd hr2]
    refine ⟨{ r2 with success := false, currentRetries := r2.currentRetries + 1 },
      ?_, rfl, by simp [hcur], rfl⟩
    have : lookupStage (updateStage st2.stageStatus s (fun r =>
        { r with success := false, currentRetries := r.currentRetries + 1 })) s =
        some { r2 with success := false, currentRetries := r2.currentRetries + 1 } := by
      rw [lookup_update, if_pos rfl, hr2]
      rfl
    simpa using this

/-- Witness for C5: the fresh `launchBrowser` record with a succeeding
action gets `success = true`, `lastSuccessTime = 0`, `lastError`
cleared. -/
theorem claim_C5_witness :
    lookupStage state0.stageStatus "launchBrowser" = some (initRetry 5) ∧
    (initRetry 5).currentRetries < (initRetry 5).maxRetries ∧
    (∃ r3, lookupStage (attemptStage okActions 0 "launchBrowser" state0).1.stageStatus
        "launchBrowser" = some r3 ∧
      r3.success = true ∧ r3.lastSuccessTime = some 0 ∧ r3.lastError = none ∧
      (attemptStage okActions 0 "launchBrowser" state0).2 = Except.ok true) :=
  ⟨by decide, by decide,
   (claim_C5 okActions (fun _ => retryNeutral_of_fixed (fun _ => rfl))
      state0 "launchBrowser" (initRetry 5) 0 (by decide) (by decide)).1
     (stampAttempt state0 "launchBrowser" 0) rfl⟩

/-- Counterexample to claim C6 as stated: with the `launchBrowser`
action merely returning failure (no thrown error), `attemptStage`
increments the retry counter but records no `lastError` at all — the
record's `lastError` stays `none`, so it is not the error message
prefixed with the stage name. -/
theorem claim_C6_counterexample :
    (dispatchStage failActions "launchBrowser" (stampAttempt state0 "launchBrowser" 0)).2
      = ActionResult.ok false ∧
    (attemptStage failActions 0 "launchBrowser" state0).2 = Except.ok false ∧
    lookupStage (attemptStage failActions 0 "launchBrowser" state0).1.stageStatus "launchBrowser"
      = some { maxRetries := 5, currentRetries := 1, lastAttempt := some 0,
               lastError := none, success := false, lastSuccessTime := none } :=
  ⟨rfl, rfl, by decide⟩

/-- Claim C6 as amended: whenever the bound action THROWS during
`attemptStage(s)`, `lastError` is recorded as the error's message
prefixed with the stage name (`"Error in <stage>: <message>"`), and the
status snapshot (which serves `stageStatus` as is) reflects it; when
the bound action merely returns failure, `attemptStage` leaves
`lastError` exactly as the action left it (the actions record their own
errors via `handleError`). -/
theorem claim_C6 (actions : Actions) (st st2 : AutoState) (s : String)
    (r0 r2 : RetryConfig) (now : Nat) (msg : String)
    (h : lookupStage st.stageStatus s = some r0)
    (hlt : r0.currentRetries < r0.maxRetries) :
    (dispatchStage actions s (stampAttempt st s now) = (st2, ActionResult.err msg) →
      lookupStage st2.stageStatus s = some r2 →
      lookupStage (attemptStage actions now s st).1.stageStatus s =
        some { r2 with success := false, currentRetries := r2.currentRetries + 1,
                       lastError := some ("Error in " ++ s ++ ": " ++ msg) } ∧
      (attemptStage actions now s st).2 = Except.ok false) ∧
    (dispatchStage actions s (stampAttempt st s now) = (st2, ActionResult.ok false) →
      lookupStage st2.stageStatus s = some r2 →
      lookupStage (attemptStage actions now s st).1.stageStatus s =
        some { r2 with success := false, currentRetries := r2.currentRetries + 1 } ∧
      (attemptStage actions now s st).2 = Except.ok false) := by
  constructor
  · intro hd h2
    rw [attemptStage_err h hlt hd h2]
    refine ⟨?_, rfl⟩
    have : lookupStage (updateStage st2.stageStatus s (fun r =>
        { r with success := false, currentRetries := r.currentRetries + 1,
                 lastError := some ("Error in " ++ s ++ ": " ++ msg) })) s =
        some { r2 with success := false, currentRetries := r2.currentRetries + 1,
                       lastError := some ("Error in " ++ s ++ ": " ++ msg) } := by
      rw [lookup_update, if_pos rfl, h2]
      rfl
    simpa using this
  · intro hd h2
    rw [attemptStage_ok h hlt hd h2]
    refine ⟨?_, rfl⟩
    have : lookupStage (updateStage st2.stageStatus s (fun r =>
        { r with success := false, currentRetries := r.currentRetries + 1 })) s =
        some { r2 with success := false, currentRetries := r2.currentRetries + 1 } := by
      rw [lookup_update, if_pos rfl, h2]
      rfl
    simpa using this

/-- Witness for the amended C6: a thrown "boom" in `launchBrowser`
records `lastError = "Error in launchBrowser: boom"`. -/
theorem claim_C6_witness :
    lookupStage state0.stageStatus "launchBrowser" = some (initRetry 5) ∧
    (lookupStage (attemptStage errActions 0 "launchBrowser" state0).1.stageStatus "launchBrowser"
        = some { maxRetries := 5, currentRetries := 1, lastAttempt := some 0,
                 lastError := some ("Error in launchBrowser: boom"), success := false,
                 lastSuccessTime := none } ∧
     (attemptStage errActions 0 "launchBrowser" state0).2 = Except.ok false) :=
  ⟨by decide,
   (claim_C6 errActions state0 (stampAttempt state0 "launchBrowser" 0) "launchBrowser"
      (initRetry 5) { (initRetry 5) with lastAttempt := some 0 } 0 "boom"
      (by decide) (by decide)).1 rfl (by decide)⟩

/-- Claim C3: in the fault-tolerance computation of the presence
detector, with `totalMethodsExecuted > 0` the verdict is present if and
only if `successfulMethods / totalMethodsExecuted >= 1/3`; with
`totalMethodsExecuted == 0` the verdict is absent through the
special-cased guard, not a `0/0` comparison.  In particular the panel
of methods returning `[true, false, false]` yields present, `[false,
false, false]` yields absent, and a panel with no method able to run
yields absent. -/
theorem claim_C3 :
    (∀ s t : Nat, 0 < t →
       (faultToleranceVerdict s t = true ↔ (s : ℚ) / (t : ℚ) ≥ 1 / 3)) ∧
    (∀ s : Nat, faultToleranceVerdict s 0 = false) ∧
    panelVerdict [MethodOutcome.ran true, MethodOutcome.ran false, MethodOutcome.ran false]
      = true ∧
    panelVerdict [MethodOutcome.ran false, MethodOutcome.ran false, MethodOutcome.ran false]
      = false ∧
    panelVerdict [MethodOutcome.errored, MethodOutcome.errored, MethodOutcome.errored]
      = false := by
  refine ⟨?_, ?_, ?_, ?_, ?_⟩
  · intro s t ht
    simp [faultToleranceVerdict, ht, userDetectionFaultTolerance]
  · intro s
    simp [faultToleranceVerdict]
  · norm_num [panelVerdict, runPanel, methodStep, faultToleranceVerdict,
      userDetectionFaultTolerance]
  · norm_num [panelVerdict, runPanel, methodStep, faultToleranceVerdict,
      userDetectionFaultTolerance]
  · norm_num [panelVerdict, runPanel, methodStep, faultToleranceVerdict,
      userDetectionFaultTolerance]

/-- Witness for C3 at the boundary point 1 of 3: the verdict agrees
with the rational comparison. -/
theorem claim_C3_witness :
    (0 : Nat) < 3 ∧
    (faultToleranceVerdict 1 3 = true ↔ (1 : ℚ) / (3 : ℚ) ≥ 1 / 3) :=
  ⟨by decide, claim_C3.1 1 3 (by decide)⟩

/-- Claim C4 names the intended counting discipline of the panel scan:
`totalMethodsExecuted` incremented only when a method runs without
raising, a raising method excluded from both counts.  The code instead
increments `totalMethods` at the top of each `try` block, before the
fallible queries run, so a raising method IS counted in the
denominator; `specMethodCounts` (the counting the claim and the
source's own comment prescribe) disagrees with `runPanel` (the code) on
any panel with a raising method. -/
theorem claim_C4 :
    runPanel [MethodOutcome.errored, MethodOutcome.ran false, MethodOutcome.ran false]
      = (3, 0) ∧
    specMethodCounts [MethodOutcome.errored, MethodOutcome.ran false, MethodOutcome.ran false]
      = (2, 0) ∧
    runPanel [MethodOutcome.errored, MethodOutcome.errored, MethodOutcome.errored] = (3, 0) ∧
    specMethodCounts [MethodOutcome.errored, MethodOutcome.errored, MethodOutcome.errored]
      = (0, 0) :=
  ⟨rfl, rfl, rfl, rfl⟩

/-- Claim C7: `findFailedStage` returns the earliest stage, in the
topology's iteration order, whose `success` is `false` (and none when
every stage has succeeded); and `setStageBeforeFailedStage` rewinds
`currentStage` to exactly that stage's statically configured
predecessor, the first stage's predecessor being the `INITIAL` state. -/
theorem claim_C7 (ss : StageStatus) (hwf : wfStages ss = true) :
    (findFailedStage ss = Except.ok none ↔ ∀ s ∈ stageOrder, stageSucceeded ss s = true) ∧
    (∀ s, findFailedStage ss = Except.ok (some s) →
       ∃ pre post r, stageOrder = pre ++ s :: post ∧
         lookupStage ss s = some r ∧ r.success = false ∧
         ∀ t ∈ pre, stageSucceeded ss t = true) ∧
    (∀ st : AutoState,
       (setStageBeforeFailedStage "launchBrowser" st).currentStage
         = ExecutionStage.initial ∧
       (setStageBeforeFailedStage "userLogin" st).currentStage
         = ExecutionStage.browser_launched ∧
       (setStageBeforeFailedStage "verifyUserLogin" st).currentStage
         = ExecutionStage.user_logged_in ∧
       (setStageBeforeFailedStage "getTodaysClass" st).currentStage
         = ExecutionStage.login_verified ∧
       (setStageBeforeFailedStage "getClassLinkFromLectures" st).currentStage
         = ExecutionStage.got_today_classes ∧
       (setStageBeforeFailedStage "joinClass" st).currentStage
         = ExecutionStage.got_today_classes) := by
  refine ⟨findFailedStageAux_none_iff ss stageOrder (wf_forall hwf), ?_, ?_⟩
  · intro s hs
    exact findFailedStageAux_some hs
  · intro st
    exact ⟨rfl, rfl, rfl, rfl, rfl, rfl⟩

/-- Witness for C7 at the constructor's topology: no stage has
succeeded, so the earliest failed stage is `launchBrowser`, the head of
the iteration order, with the whole characterisation discharged. -/
theorem claim_C7_witness :
    wfStages initStageStatus = true ∧
    (findFailedStage initStageStatus = Except.ok none ↔
      ∀ s ∈ stageOrder, stageSucceeded initStageStatus s = true) :=
  ⟨by decide, (claim_C7 initStageStatus (by decide)).1⟩

/-- Counterexample to claim C8 as stated.  First input: a `FAILED` state
whose stages are all fresh — the failed stage located by
`findFailedStage` is `launchBrowser` with `0 < 5` retries left, so the
tick rewinds (`currentStage` becomes `INITIAL`), yet the status
aggregated at the end of the tick is `failed`, not `degraded`, because
the final `updateSystemStatus` call recomputes a count-based status and
zero stages have succeeded.  Second input: a state with every
unsucceeded stage exhausted (`hasRetriableFailure = false`), already
reported `failed` — a tick during which the browser handle has lost its
connection rewinds to `INITIAL`, relaunches, and leaves the failed
status (`degraded` after the tick), so the failed status is not
permanent under every subsequent tick. -/
theorem claim_C8_counterexample :
    (freshFailedState.currentStage = ExecutionStage.failed ∧
     findFailedStage freshFailedState.stageStatus = Except.ok (some "launchBrowser") ∧
     lookupStage freshFailedState.stageStatus "launchBrowser" = some (initRetry 5) ∧
     (initRetry 5).currentRetries < (initRetry 5).maxRetries ∧
     (monitorTick idleEnv 0 freshFailedState).currentStage = ExecutionStage.initial ∧
     (monitorTick idleEnv 0 freshFailedState).systemStatus = SystemStatus.failed) ∧
    (hasRetriableFailure termState.stageStatus = false ∧
     termState.currentStage = ExecutionStage.failed ∧
     termState.systemStatus = SystemStatus.failed ∧
     (monitorTick lostEnv 0 termState).systemStatus = SystemStatus.degraded) :=
  ⟨⟨rfl, rfl, by decide, by decide, by decide, by decide⟩,
   ⟨by decide, rfl, rfl, by decide⟩⟩

/-- Claim C8 as amended: for a monitor tick that starts with
`currentStage == FAILED`, with the mutex free and the
browser-connectivity reset not firing.  (a) If the failed stage located
by `findFailedStage` has `currentRetries < maxRetries`, recovery
rewinds `currentStage` to exactly that stage's configured predecessor
and leaves every record untouched; the status aggregated after the
tick is `degraded` provided at least one stage has succeeded — if none
has, the final count-based aggregation reports `failed` despite the
rewind.  (b) If retries are exhausted for every stage that has not
succeeded, no rewind occurs, the status is `failed`, and every
subsequent tick in which the browser-connectivity reset does not fire
leaves the state unchanged — the failure is permanent under those
ticks. -/
theorem claim_C8 (env : TickEnv) (now : Nat) (st : AutoState)
    (hlock : st.monitoringLocked = false)
    (hstage : st.currentStage = ExecutionStage.failed)
    (hbr : env.browserLost = false)
    (hwf : wfStages st.stageStatus = true) :
    (∀ s r, findFailedStage st.stageStatus = Except.ok (some s) →
        lookupStage st.stageStatus s = some r →
        r.currentRetries < r.maxRetries →
        (monitorTick env now st).currentStage = (setStageBeforeFailedStage s st).currentStage ∧
        (monitorTick env now st).stageStatus = st.stageStatus ∧
        (0 < countCompleted st.stageStatus →
           (monitorTick env now st).systemStatus = SystemStatus.degraded) ∧
        (countCompleted st.stageStatus = 0 →
           (monitorTick env now st).systemStatus = SystemStatus.failed)) ∧
    ((∀ p ∈ st.stageStatus, p.2.success = false → p.2.maxRetries ≤ p.2.currentRetries) →
        monitorTick env now st = { st with systemStatus := SystemStatus.failed } ∧
        ∀ env2 now2, env2.browserLost = false →
            monitorTick env2 now2 { st with systemStatus := SystemStatus.failed } =
              { st with systemStatus := SystemStatus.failed }) := by
  constructor
  · intro s r hfind hrec hlt
    obtain ⟨pre, post, r9, hL, hlook, hrs, hpre⟩ := findFailedStageAux_some hfind
    have hr9 : r9 = r := by
      rw [hrec] at hlook
      cases hlook
      rfl
    subst hr9
    have hltlen : countCompleted st.stageStatus < st.stageStatus.length :=
      countCompleted_lt_length hrec hrs
    rw [rewind_tick hlock hstage hbr hfind hrec hlt]
    obtain ⟨hne1, hne2⟩ := setStage_not_failed s st
    obtain ⟨hus1, hus2⟩ := updateSystemStatus_stage
      { setStageBeforeFailedStage s st with systemStatus := SystemStatus.degraded }
    have hss2 : ({ setStageBeforeFailedStage s st with
        systemStatus := SystemStatus.degraded } : AutoState).stageStatus = st.stageStatus :=
      setStage_stageStatus s st
    have hne1' : ({ setStageBeforeFailedStage s st with
        systemStatus := SystemStatus.degraded } : AutoState).currentStage
        ≠ ExecutionStage.failed := hne1
    have hne2' : ({ setStageBeforeFailedStage s st with
        systemStatus := SystemStatus.degraded } : AutoState).currentStage
        ≠ ExecutionStage.class_joined := hne2
    refine ⟨by rw [hus1], by rw [hus2]; exact hss2, ?_, ?_⟩
    · intro hpos
      rw [updateSystemStatus_count hne1' hne2', hss2]
      rw [if_neg (by omega), if_pos hpos]
    · intro hzero
      rw [updateSystemStatus_count hne1' hne2', hss2]
      rw [if_neg (by omega), if_neg (by omega)]
  · intro hall
    have hfirst : monitorTick env now st = { st with systemStatus := SystemStatus.failed } :=
      terminal_tick hlock hstage hbr hwf hall
    refine ⟨hfirst, ?_⟩
    intro env2 now2 hbr2
    exact @terminal_tick env2 now2 { st with systemStatus := SystemStatus.failed }
      hlock hstage hbr2 hwf hall

/-- Witness for the amended C8 at the terminal state: the tick reports
`failed` and the state is unchanged. -/
theorem claim_C8_witness :
    termState.monitoringLocked = false ∧
    termState.currentStage = ExecutionStage.failed ∧
    idleEnv.browserLost = false ∧
    wfStages termState.stageStatus = true ∧
    monitorTick idleEnv 0 termState = { termState with systemStatus := SystemStatus.failed } :=
  ⟨rfl, rfl, rfl, by decide,
   ((claim_C8 idleEnv 0 termState rfl rfl rfl (by decide)).2 (by decide)).1⟩

end OrchestratorModel
